import Mathlib

/-!
Verification of the error-chain library (`src/index.ts`): the `AppError`
class with Go-style cause chaining, its built-in subclasses, the standalone
chain queries `isError` / `asError`, the converter `fromUnknown`, and the
`tryCatch` / `tryCatchAsync` boundaries over the re-exported neverthrow
`Result` container.

Modelling choices, all read off the source:
- Each error class is identified by its runtime class name (`this.constructor.name`),
  modelled as the enumeration `AppCls`.  Every built-in subclass extends
  `AppError` directly, so `instanceof` for a target class `C` holds exactly
  when the instance's own class equals `C` or `C` is the base class
  (`appSubLe`).
- An `AppError` instance is `AppErr.mk cls message cause stack`: the class
  declares `cause?: AppError` and `message`, and the constructor captures
  an opaque stack snapshot; the snapshot is environment-provided, so the
  model takes it (and hence `Error.captureStackTrace`) as an explicit
  `Option String` argument.  Instances are immutable after construction.
- Arbitrary JavaScript values reaching the standalone functions are
  `JSValue`: primitives, plain non-Error objects (which may expose a
  `cause` property), host `Error` instances that are not `AppError`s
  (whose `cause` may be any value), and `AppError` instances.
- JavaScript truthiness of a value (`if (error.cause)`, `id ? a : b`) is
  the `truthy` predicate; string truthiness is non-emptiness, number
  truthiness is non-zero.
-/

/-- The runtime class of an error instance: `AppError` or one of its
built-in subclasses (the class name is the tag / `name`). -/
inductive AppCls where
  | appError
  | notFound
  | validation
  | database
  | network
  | permission
  | timeoutCls
  | conflict
  | unexpected
deriving DecidableEq, Repr

/-- `this.constructor.name` for each class. -/
def className : AppCls → String
  | .appError => "AppError"
  | .notFound => "NotFoundError"
  | .validation => "ValidationError"
  | .database => "DatabaseError"
  | .network => "NetworkError"
  | .permission => "PermissionError"
  | .timeoutCls => "TimeoutError"
  | .conflict => "ConflictError"
  | .unexpected => "UnexpectedError"

/-- `instanceof`: every built-in subclass extends `AppError` directly, so an
instance of class `a` is an instance of target class `b` iff `a = b` or `b`
is the base class `AppError`. -/
def appSubLe (a b : AppCls) : Bool :=
  a = b || b = AppCls.appError

/-- An `AppError` instance: class, `message`, `cause?: AppError`
(the declared field type), and the captured stack snapshot (`stack`,
possibly absent). -/
inductive AppErr where
  | mk (cls : AppCls) (message : String) (cause : Option AppErr) (stack : Option String)
deriving Repr

def AppErr.cls : AppErr → AppCls
  | .mk c _ _ _ => c

def AppErr.message : AppErr → String
  | .mk _ m _ _ => m

def AppErr.cause : AppErr → Option AppErr
  | .mk _ _ ca _ => ca

def AppErr.stack : AppErr → Option String
  | .mk _ _ _ st => st

/-- `get tag(): string { return this.constructor.name; }` -/
def AppErr.tag (e : AppErr) : String := className e.cls

/-- `this.name = this.constructor.name;` set in the `AppError` constructor. -/
def AppErr.errName (e : AppErr) : String := className e.cls

/-- `new AppError(message, cause?)`; the constructor captures the stack
snapshot, passed here explicitly. -/
def AppError (message : String) (cause : Option AppErr) (stack : Option String) : AppErr :=
  AppErr.mk .appError message cause stack

/-- `new NotFoundError(resource, id?, cause?)`: message is
`resource + " with id '" + id + "' not found"` when `id` is truthy, else
`resource + " not found"`. -/
def NotFoundError (resource : String) (id : Option String) (cause : Option AppErr)
    (stack : Option String) : AppErr :=
  AppErr.mk .notFound
    (match id with
      | some i => if i = "" then resource ++ " not found"
                  else resource ++ " with id '" ++ i ++ "' not found"
      | none => resource ++ " not found")
    cause stack

/-- `new ValidationError(field, reason, cause?)`. -/
def ValidationError (field : String) (reason : String) (cause : Option AppErr)
    (stack : Option String) : AppErr :=
  AppErr.mk .validation (field ++ ": " ++ reason) cause stack

/-- `new DatabaseError(operation, message, cause?)`. -/
def DatabaseError (operation : String) (message : String) (cause : Option AppErr)
    (stack : Option String) : AppErr :=
  AppErr.mk .database (operation ++ ": " ++ message) cause stack

/-- `new NetworkError(url, statusCode?, message?, cause?)`:
`msg = message ?? (statusCode ? "HTTP " + statusCode : "Network error")`. -/
def NetworkError (url : String) (statusCode : Option Int) (message : Option String)
    (cause : Option AppErr) (stack : Option String) : AppErr :=
  AppErr.mk .network
    (url ++ ": " ++
      (match message with
        | some m => m
        | none =>
          match statusCode with
          | some c => if c = 0 then "Network error" else "HTTP " ++ toString c
          | none => "Network error"))
    cause stack

/-- `new PermissionError(action, resource?, cause?)`. -/
def PermissionError (action : String) (resource : Option String) (cause : Option AppErr)
    (stack : Option String) : AppErr :=
  AppErr.mk .permission
    (match resource with
      | some r => if r = "" then "Permission denied: " ++ action
                  else "Cannot " ++ action ++ " on " ++ r
      | none => "Permission denied: " ++ action)
    cause stack

/-- `new TimeoutError(operation, timeoutMs, cause?)`. -/
def TimeoutError (operation : String) (timeoutMs : Int) (cause : Option AppErr)
    (stack : Option String) : AppErr :=
  AppErr.mk .timeoutCls (operation ++ " timed out after " ++ toString timeoutMs ++ "ms")
    cause stack

/-- `new ConflictError(resource, message, cause?)`. -/
def ConflictError (resource : String) (message : String) (cause : Option AppErr)
    (stack : Option String) : AppErr :=
  AppErr.mk .conflict (resource ++ ": " ++ message) cause stack

/-- `new UnexpectedError(message, cause?)`. -/
def UnexpectedError (message : String) (cause : Option AppErr)
    (stack : Option String) : AppErr :=
  AppErr.mk .unexpected message cause stack

/-- `wrap(message): AppError { return new AppError(message, this); }` -/
def AppErr.wrap (e : AppErr) (message : String) (stack : Option String) : AppErr :=
  AppError message (some e) stack

/-- `chainArray(): AppError[]` — `[this]` then push every cause while present. -/
def AppErr.chainArray : AppErr → List AppErr
  | .mk c m none st => [.mk c m none st]
  | .mk c m (some cc) st => .mk c m (some cc) st :: AppErr.chainArray cc

/-- `rootCause(): AppError` — follow `cause` while present. -/
def AppErr.rootCause : AppErr → AppErr
  | .mk c m none st => .mk c m none st
  | .mk _ _ (some cc) _ => AppErr.rootCause cc

/-- The `messages` array built by `chain()`: `"[tag] message"` for this node
then for each cause in turn. -/
def chainMsgs : AppErr → List String
  | .mk c m none _ => ["[" ++ className c ++ "] " ++ m]
  | .mk c m (some cc) _ => ("[" ++ className c ++ "] " ++ m) :: chainMsgs cc

/-- `chain(): string` — the messages joined with `" -> "`. -/
def AppErr.chain (e : AppErr) : String :=
  String.intercalate " -> " (chainMsgs e)

/-- The `ErrorJSON` interface: `{tag, name, message, stack?, cause?}`. -/
inductive ErrorJSON where
  | mk (tag : String) (name : String) (message : String) (stack : Option String)
      (cause : Option ErrorJSON)
deriving Repr

def ErrorJSON.tag : ErrorJSON → String
  | .mk t _ _ _ _ => t

def ErrorJSON.name : ErrorJSON → String
  | .mk _ n _ _ _ => n

def ErrorJSON.message : ErrorJSON → String
  | .mk _ _ m _ _ => m

def ErrorJSON.stack : ErrorJSON → Option String
  | .mk _ _ _ st _ => st

def ErrorJSON.cause : ErrorJSON → Option ErrorJSON
  | .mk _ _ _ _ c => c

/-- `toJSON(): ErrorJSON` — `{tag: this.tag, name: this.name, message,
stack, cause: this.cause?.toJSON()}`. -/
def AppErr.toJSON : AppErr → ErrorJSON
  | .mk c m none st => ErrorJSON.mk (className c) (className c) m st none
  | .mk c m (some cc) st =>
      ErrorJSON.mk (className c) (className c) m st (some (AppErr.toJSON cc))

/-- Nesting depth of an `ErrorJSON` record. -/
def jsonDepth : ErrorJSON → Nat
  | .mk _ _ _ _ none => 1
  | .mk _ _ _ _ (some c) => 1 + jsonDepth c

/-- The `tag` sequence of an `ErrorJSON` record, flattened head-first. -/
def jsonTags : ErrorJSON → List String
  | .mk t _ _ _ none => [t]
  | .mk t _ _ _ (some c) => t :: jsonTags c

/-- An arbitrary JavaScript value as seen by the standalone functions:
primitives, plain non-Error objects (with an optional `cause` property),
host `Error` instances that are not `AppError`s (message, stack, and an
optional `cause` of any value, as allowed by `new Error(msg, {cause})`),
and `AppError` instances. -/
inductive JSValue where
  | vstr (s : String)
  | vnum (n : Int)
  | vbool (b : Bool)
  | vnull
  | vundef
  | vobj (cause : Option JSValue)
  | vhostErr (message : String) (stack : Option String) (cause : Option JSValue)
  | vapp (e : AppErr)
deriving Repr

/-- JavaScript truthiness. -/
def truthy : JSValue → Bool
  | .vstr s => s ≠ ""
  | .vnum n => n ≠ 0
  | .vbool b => b
  | .vnull => false
  | .vundef => false
  | .vobj _ => true
  | .vhostErr _ _ _ => true
  | .vapp _ => true

/-- `value instanceof errorClass` where `errorClass` is `AppError` or one of
its subclasses: only `AppError` instances match, via `appSubLe`. -/
def instOf : JSValue → AppCls → Bool
  | .vapp e, C => appSubLe e.cls C
  | _, _ => false

/-- `isError` restricted to an `AppError` instance: `instanceof` on the node,
else recurse into the (declared `AppError`-typed, always-truthy) cause. -/
def isErrorApp : AppErr → AppCls → Bool
  | .mk c _ cause _, C =>
      if appSubLe c C then true
      else
        match cause with
        | some cc => isErrorApp cc C
        | none => false

/-- `isError(error, errorClass)`:
`if (error instanceof errorClass) return true;`
`if (error instanceof Error && error.cause) return isError(error.cause, errorClass);`
`return false;`
A plain (non-`AppError`) host `Error` never matches `errorClass` itself but
its truthy `cause` is walked; a non-`Error` value returns `false` at once. -/
def isError : JSValue → AppCls → Bool
  | .vapp e, C => isErrorApp e C
  | .vhostErr _ _ (some cv), C => if truthy cv then isError cv C else false
  | _, _ => false

/-- `asError` restricted to an `AppError` instance. -/
def asErrorApp : AppErr → AppCls → Option AppErr
  | .mk c m cause st, C =>
      if appSubLe c C then some (.mk c m cause st)
      else
        match cause with
        | some cc => asErrorApp cc C
        | none => none

/-- `asError(error, errorClass)`:
`if (error instanceof errorClass) return error;`
`if (error instanceof Error && error.cause) return asError(error.cause, errorClass);`
`return undefined;` -/
def asError : JSValue → AppCls → Option JSValue
  | .vapp e, C => (asErrorApp e C).map JSValue.vapp
  | .vhostErr _ _ (some cv), C => if truthy cv then asError cv C else none
  | _, _ => none

/-- The nodes of an `AppError` chain as `JSValue`s, head-first. -/
def walkApp : AppErr → List JSValue
  | .mk c m none st => [JSValue.vapp (.mk c m none st)]
  | .mk c m (some cc) st => JSValue.vapp (.mk c m (some cc) st) :: walkApp cc

/-- The sequence of values the `isError` / `asError` recursion actually
visits: the value itself, continuing into the cause only while the current
value is a host `Error` whose `cause` is present and truthy. -/
def causeWalk : JSValue → List JSValue
  | .vapp e => walkApp e
  | .vhostErr m st (some cv) =>
      if truthy cv then JSValue.vhostErr m st (some cv) :: causeWalk cv
      else [JSValue.vhostErr m st (some cv)]
  | v => [v]

/-- Modelled from the spec and claim C1's wording, not from the source: the
walk that visits a value, then its cause, then the cause's cause, continuing
through ANY value that exposes a cause link (a plain object's `cause`
property included). -/
def specCauseChain : JSValue → List JSValue
  | .vapp e => walkApp e
  | .vhostErr m st (some cv) => JSValue.vhostErr m st (some cv) :: specCauseChain cv
  | .vobj (some cv) => JSValue.vobj (some cv) :: specCauseChain cv
  | v => [v]

/-- `String(value)` for the values in this model (integers only for numbers;
`Error` instances render `name: message`). -/
def jsToString : JSValue → String
  | .vstr s => s
  | .vnum n => toString n
  | .vbool b => if b then "true" else "false"
  | .vnull => "null"
  | .vundef => "undefined"
  | .vobj _ => "[object Object]"
  | .vhostErr m _ _ => if m = "" then "Error" else "Error: " ++ m
  | .vapp e => if e.message = "" then e.tag else e.tag ++ ": " ++ e.message

/-- `true` for the values that are neither `AppError`s nor host `Error`s. -/
def notErrorVal : JSValue → Bool
  | .vapp _ => false
  | .vhostErr _ _ _ => false
  | _ => true

/-- `fromUnknown(error)`:
`if (error instanceof AppError) return error;`
`if (error instanceof Error) { const appError = new UnexpectedError(error.message); appError.stack = error.stack; return appError; }`
`return new UnexpectedError(String(error));`
`fresh` is the stack snapshot captured by the final `UnexpectedError`
construction (in the `Error` branch the snapshot is overwritten with the
foreign error's own `stack`). -/
def fromUnknown (fresh : Option String) : JSValue → AppErr
  | .vapp e => e
  | .vhostErr m st _ => AppErr.mk .unexpected m none st
  | v => AppErr.mk .unexpected (jsToString v) none fresh

/-- The neverthrow `Result` container (external collaborator): only the
`ok` / `err` constructors are needed here. -/
inductive Result (T : Type) (E : Type) where
  | ok (value : T)
  | err (error : E)
deriving Repr

/-- A `ResultAsync` is modelled by the `Result` it settles to (the wrapped
promise's outcome; no concurrency is introduced by the library). -/
def ResultAsync (T : Type) (E : Type) : Type := Result T E

/-- `ResultAsync.fromPromise(promise, mapError)`: the settled outcome of the
promise is `p`; a fulfilled value yields `ok`, a rejection reason is mapped
through `mapError` into `err`. -/
def ResultAsync.fromPromise {T E : Type} (p : Except JSValue T)
    (mapError : JSValue → E) : ResultAsync T E :=
  match p with
  | .ok v => Result.ok v
  | .error e => Result.err (mapError e)

/-- `tryCatch(fn, mapError)`: `fn`'s evaluation either returns a value or
throws one (`Except`); `try { return ok(fn()) } catch (e) { return err(mapError(e)) }`. -/
def tryCatch {T E : Type} (fn : Except JSValue T) (mapError : JSValue → E) : Result T E :=
  match fn with
  | .ok v => Result.ok v
  | .error e => Result.err (mapError e)

/-- `tryCatch` with the default mapper `(e) => fromUnknown(e)`. -/
def tryCatchDefault {T : Type} (fresh : Option String) (fn : Except JSValue T) :
    Result T AppErr :=
  tryCatch fn (fromUnknown fresh)

/-- `tryCatchAsync(fn, mapError) = ResultAsync.fromPromise(fn(), mapError)`. -/
def tryCatchAsync {T E : Type} (fn : Except JSValue T) (mapError : JSValue → E) :
    ResultAsync T E :=
  ResultAsync.fromPromise fn mapError

/-- `tryCatchAsync` with the default mapper `(e) => fromUnknown(e)`. -/
def tryCatchAsyncDefault {T : Type} (fresh : Option String) (fn : Except JSValue T) :
    ResultAsync T AppErr :=
  tryCatchAsync fn (fromUnknown fresh)

/-- The input of the failing `fromUnknown` test:
`new Error('wrapper', { cause: new Error('root cause') })`. -/
def c3FailingInput : JSValue :=
  JSValue.vhostErr "wrapper" none (some (JSValue.vhostErr "root cause" none none))

/-- C1's counterexample input: a plain non-Error object whose `cause`
property holds a `NotFoundError`. -/
def c1CexInput : JSValue :=
  JSValue.vobj (some (JSValue.vapp (NotFoundError "User" (some "123") none none)))

/-! Helper lemmas (shared between the claim theorems). -/

theorem isErrorApp_eq_any : ∀ (e : AppErr) (C : AppCls),
    isErrorApp e C = (walkApp e).any (fun n => instOf n C)
  | .mk c m none st, C => by
      cases h : appSubLe c C <;>
        simp [isErrorApp, walkApp, instOf, AppErr.cls, h]
  | .mk c m (some cc) st, C => by
      have ih := isErrorApp_eq_any cc C
      cases h : appSubLe c C <;>
        simp [isErrorApp, walkApp, instOf, AppErr.cls, h, ih]

theorem isError_eq_any : ∀ (v : JSValue) (C : AppCls),
    isError v C = (causeWalk v).any (fun n => instOf n C)
  | .vapp e, C => by simpa [isError, causeWalk] using isErrorApp_eq_any e C
  | .vhostErr m st none, C => by simp [isError, causeWalk, instOf]
  | .vhostErr m st (some cv), C => by
      have ih := isError_eq_any cv C
      cases h : truthy cv <;> simp [isError, causeWalk, instOf, h, ih]
  | .vstr s, C => by simp [isError, causeWalk, instOf]
  | .vnum n, C => by simp [isError, causeWalk, instOf]
  | .vbool b, C => by simp [isError, causeWalk, instOf]
  | .vnull, C => by simp [isError, causeWalk, instOf]
  | .vundef, C => by simp [isError, causeWalk, instOf]
  | .vobj ca, C => by simp [isError, causeWalk, instOf]

theorem asErrorApp_eq_find : ∀ (e : AppErr) (C : AppCls),
    (asErrorApp e C).map JSValue.vapp = (walkApp e).find? (fun n => instOf n C)
  | .mk c m none st, C => by
      cases h : appSubLe c C <;>
        simp [asErrorApp, walkApp, instOf, AppErr.cls, h, List.find?]
  | .mk c m (some cc) st, C => by
      have ih := asErrorApp_eq_find cc C
      cases h : appSubLe c C <;>
        simp [asErrorApp, walkApp, instOf, AppErr.cls, h, ih, List.find?]

theorem asError_eq_find : ∀ (v : JSValue) (C : AppCls),
    asError v C = (causeWalk v).find? (fun n => instOf n C)
  | .vapp e, C => by simpa [asError, causeWalk] using asErrorApp_eq_find e C
  | .vhostErr m st none, C => by simp [asError, causeWalk, instOf, List.find?]
  | .vhostErr m st (some cv), C => by
      have ih := asError_eq_find cv C
      cases h : truthy cv <;> simp [asError, causeWalk, instOf, h, ih, List.find?]
  | .vstr s, C => by simp [asError, causeWalk, instOf, List.find?]
  | .vnum n, C => by simp [asError, causeWalk, instOf, List.find?]
  | .vbool b, C => by simp [asError, causeWalk, instOf, List.find?]
  | .vnull, C => by simp [asError, causeWalk, instOf, List.find?]
  | .vundef, C => by simp [asError, causeWalk, instOf, List.find?]
  | .vobj ca, C => by simp [asError, causeWalk, instOf, List.find?]

theorem chainMsgs_eq_map : ∀ (e : AppErr),
    chainMsgs e = e.chainArray.map (fun x => "[" ++ x.tag ++ "] " ++ x.message)
  | .mk c m none st => by
      simp [chainMsgs, AppErr.chainArray, AppErr.tag, AppErr.cls, AppErr.message]
  | .mk c m (some cc) st => by
      have ih := chainMsgs_eq_map cc
      simp [chainMsgs, AppErr.chainArray, AppErr.tag, AppErr.cls, AppErr.message, ih]

theorem chainArray_ne_nil : ∀ (e : AppErr), e.chainArray ≠ []
  | .mk c m none st => by simp [AppErr.chainArray]
  | .mk c m (some cc) st => by simp [AppErr.chainArray]

theorem chainArray_getLast : ∀ (e : AppErr),
    e.chainArray.getLast? = some e.rootCause
  | .mk c m none st => by simp [AppErr.chainArray, AppErr.rootCause]
  | .mk c m (some cc) st => by
      have ih := chainArray_getLast cc
      have hne := chainArray_ne_nil cc
      rw [AppErr.chainArray, AppErr.rootCause]
      cases hl : AppErr.chainArray cc with
      | nil => exact absurd hl hne
      | cons a l => rw [hl] at ih; rw [List.getLast?_cons_cons, ih]

theorem chainArray_head : ∀ (e : AppErr), e.chainArray.head? = some e
  | .mk c m none st => by simp [AppErr.chainArray]
  | .mk c m (some cc) st => by simp [AppErr.chainArray]

theorem jsonTags_eq : ∀ (e : AppErr),
    jsonTags e.toJSON = e.chainArray.map AppErr.tag
  | .mk c m none st => by
      simp [AppErr.toJSON, jsonTags, AppErr.chainArray, AppErr.tag, AppErr.cls]
  | .mk c m (some cc) st => by
      have ih := jsonTags_eq cc
      simp [AppErr.toJSON, jsonTags, AppErr.chainArray, AppErr.tag, AppErr.cls, ih]

theorem jsonDepth_eq : ∀ (e : AppErr),
    jsonDepth e.toJSON = e.chainArray.length
  | .mk c m none st => by
      simp [AppErr.toJSON, jsonDepth, AppErr.chainArray]
  | .mk c m (some cc) st => by
      have ih := jsonDepth_eq cc
      simp [AppErr.toJSON, jsonDepth, AppErr.chainArray, ih]
      omega

/-! Claim theorems. -/

/-- C1, counterexample: the claim as stated is false. The claim's walk
continues through ANY value that exposes a cause link, so on a plain
non-Error object whose `cause` property holds a `NotFoundError` the walk
reaches a node of the requested kind, yet `isError` returns `false`
(the source only continues the walk when the value is a host `Error`
instance). -/
theorem claim_c1_counterexample :
    isError c1CexInput AppCls.notFound = false ∧
    (specCauseChain c1CexInput).any (fun n => instOf n AppCls.notFound) = true ∧
    ¬ (isError c1CexInput AppCls.notFound
        = (specCauseChain c1CexInput).any (fun n => instOf n AppCls.notFound)) := by
  refine ⟨rfl, rfl, ?_⟩
  intro h
  exact Bool.noConfusion h

/-- C1, amended: for every value v and kind k, `isError(v, k)` returns true
exactly when the walk that visits v, then v's cause, and so on — continuing
only while the current value is a host `Error` instance whose cause link is
present and truthy (a non-Error value's cause link is not followed) —
reaches a node that is an instance of k; it returns false when that walk is
exhausted without a match, including for non-error inputs such as strings,
numbers, or null. -/
theorem claim_c1_amended : ∀ (v : JSValue) (C : AppCls) (s : String) (i : Int),
    isError v C = (causeWalk v).any (fun n => instOf n C) ∧
    isError (JSValue.vstr s) C = false ∧
    isError (JSValue.vnum i) C = false ∧
    isError JSValue.vnull C = false := by
  intro v C s i
  exact ⟨isError_eq_any v C, by simp [isError], by simp [isError], by simp [isError]⟩

/-- C2: `asError(v, k)` returns the first (lowest-index) node of kind k on
the cause walk from v (`find?` over the walked chain), or `none` when no
node matches; the returned handle is an element of the existing chain
itself, not a copy. -/
theorem claim_c2 : ∀ (v : JSValue) (C : AppCls),
    asError v C = (causeWalk v).find? (fun n => instOf n C) ∧
    (∀ n : JSValue, asError v C = some n → n ∈ causeWalk v) := by
  intro v C
  refine ⟨asError_eq_find v C, ?_⟩
  intro n h
  rw [asError_eq_find v C] at h
  exact List.mem_of_find?_eq_some h

/-- C2 witness: a `DatabaseError` wrapped once; `asError` on the head finds
the `DatabaseError` node itself, and that node is in the walked chain. -/
theorem claim_c2_witness :
    asError
        (JSValue.vapp ((DatabaseError "SELECT" "Connection failed" none none).wrap "Failed" none))
        AppCls.database
      = (causeWalk
          (JSValue.vapp ((DatabaseError "SELECT" "Connection failed" none none).wrap "Failed" none))).find?
          (fun n => instOf n AppCls.database) ∧
    JSValue.vapp (DatabaseError "SELECT" "Connection failed" none none)
      ∈ causeWalk
          (JSValue.vapp ((DatabaseError "SELECT" "Connection failed" none none).wrap "Failed" none)) :=
  ⟨(claim_c2 _ AppCls.database).1, (claim_c2 _ AppCls.database).2 _ rfl⟩

/-- C3, evaluation at the failing input: on
`new Error('wrapper', { cause: new Error('root cause') })` the source's
`fromUnknown` yields `UnexpectedError` with message "wrapper" but drops the
foreign cause link (`cause` is absent), contradicting the claim, the spec,
and the repository's own test `preserves cause chain from plain Error`. -/
theorem claim_c3_eval :
    (fromUnknown none c3FailingInput).cls = AppCls.unexpected ∧
    (fromUnknown none c3FailingInput).message = "wrapper" ∧
    (fromUnknown none c3FailingInput).cause = none :=
  ⟨rfl, rfl, rfl⟩

/-- C4: `fromUnknown` is total: an `AppError` instance is returned
unchanged (identity); any non-error value yields an `UnexpectedError` whose
message is the value's string rendering; in particular
`fromUnknown("plain string")` yields an Unexpected-kind node with message
"plain string". -/
theorem claim_c4 : ∀ (fresh : Option String),
    (∀ e : AppErr, fromUnknown fresh (JSValue.vapp e) = e) ∧
    (∀ v : JSValue, notErrorVal v = true →
        fromUnknown fresh v = AppErr.mk AppCls.unexpected (jsToString v) none fresh) ∧
    fromUnknown fresh (JSValue.vstr "plain string")
      = AppErr.mk AppCls.unexpected "plain string" none fresh := by
  intro fresh
  refine ⟨fun e => rfl, ?_, rfl⟩
  intro v hv
  cases v <;> first
    | rfl
    | simp [notErrorVal] at hv

/-- C4 witness: `fromUnknown` at the number 42 (a non-error value), at an
`AppError` instance, and at "plain string". -/
theorem claim_c4_witness :
    notErrorVal (JSValue.vnum 42) = true ∧
    fromUnknown none (JSValue.vnum 42) = AppErr.mk AppCls.unexpected "42" none none ∧
    fromUnknown none (JSValue.vapp (AppError "x" none none)) = AppError "x" none none ∧
    fromUnknown none (JSValue.vstr "plain string")
      = AppErr.mk AppCls.unexpected "plain string" none none :=
  ⟨rfl, (claim_c4 none).2.1 (JSValue.vnum 42) rfl, (claim_c4 none).1 _,
   (claim_c4 none).2.2⟩

/-- C5: `wrap(n, m)` returns a new head node of the generic `AppError`
kind with message m and cause exactly n (n itself is unchanged — nodes are
immutable); each wrap increases the chain length by exactly one, so a double
wrap adds two and three wraps over a 1-node chain yield length 4. -/
theorem claim_c5 : ∀ (n : AppErr) (m a b c : String) (f fa fb fc : Option String),
    (n.wrap m f).cls = AppCls.appError ∧
    (n.wrap m f).message = m ∧
    (n.wrap m f).cause = some n ∧
    (n.wrap m f).chainArray.length = n.chainArray.length + 1 ∧
    ((n.wrap a fa).wrap b fb).chainArray.length = n.chainArray.length + 2 ∧
    (n.chainArray.length = 1 →
      (((n.wrap a fa).wrap b fb).wrap c fc).chainArray.length = 4) := by
  intro n m a b c f fa fb fc
  refine ⟨rfl, rfl, rfl, ?_, ?_, ?_⟩
  · simp [AppErr.wrap, AppError, AppErr.chainArray]
  · simp [AppErr.wrap, AppError, AppErr.chainArray]
  · intro h
    simp [AppErr.wrap, AppError, AppErr.chainArray, h]

/-- C5 witness: three wraps over a 1-node `DatabaseError` chain yield
chain length 4. -/
theorem claim_c5_witness :
    (DatabaseError "SELECT" "Failed" none none).chainArray.length = 1 ∧
    ((((DatabaseError "SELECT" "Failed" none none).wrap "User lookup failed" none).wrap
        "GetUser failed" none).wrap "Request failed" none).chainArray.length = 4 :=
  ⟨rfl,
   (claim_c5 (DatabaseError "SELECT" "Failed" none none) "m" "User lookup failed"
      "GetUser failed" "Request failed" none none none none).2.2.2.2.2 rfl⟩

/-- C6: `chainArray(n)[0] = n`; the length is `1 + chainArray(n.cause).length`
when a cause is present and 1 otherwise; `rootCause(n)` is the last element
of `chainArray(n)`, and is n itself when n has no cause. -/
theorem claim_c6 : ∀ (n : AppErr),
    n.chainArray.head? = some n ∧
    n.chainArray.length
      = (match n.cause with
          | some c => 1 + c.chainArray.length
          | none => 1) ∧
    n.chainArray.getLast? = some n.rootCause ∧
    (n.cause = none → n.rootCause = n) := by
  intro n
  refine ⟨chainArray_head n, ?_, chainArray_getLast n, ?_⟩
  · cases n with
    | mk c m ca st =>
      cases ca <;> simp [AppErr.chainArray, AppErr.cause]
      omega
  · intro h
    cases n with
    | mk c m ca st =>
      simp [AppErr.cause] at h
      subst h
      rfl

/-- C6 witness: a concrete two-node chain. -/
theorem claim_c6_witness :
    ((DatabaseError "SELECT" "Failed" none none).wrap "Failed" none).chainArray.head?
      = some ((DatabaseError "SELECT" "Failed" none none).wrap "Failed" none) ∧
    (DatabaseError "SELECT" "Failed" none none).cause = none ∧
    (DatabaseError "SELECT" "Failed" none none).rootCause
      = DatabaseError "SELECT" "Failed" none none :=
  ⟨(claim_c6 _).1, rfl, (claim_c6 (DatabaseError "SELECT" "Failed" none none)).2.2.2 rfl⟩

/-- C7: `chain()` renders "[kind] message" for the head and every
subsequent node, joined with " -> " and no trailing separator (a single-node
chain is just its own "[kind] message"); the two concrete scenario strings
hold exactly. -/
theorem claim_c7 : ∀ (n : AppErr),
    n.chain = String.intercalate " -> "
      (n.chainArray.map (fun x => "[" ++ x.tag ++ "] " ++ x.message)) ∧
    (n.cause = none → n.chain = "[" ++ n.tag ++ "] " ++ n.message) ∧
    (NotFoundError "User" (some "123") none none).chain
      = "[NotFoundError] User with id '123' not found" ∧
    ((DatabaseError "SELECT" "Timeout" none none).wrap "Failed to get user" none).chain
      = "[AppError] Failed to get user -> [DatabaseError] SELECT: Timeout" := by
  intro n
  refine ⟨?_, ?_, rfl, rfl⟩
  · rw [AppErr.chain, chainMsgs_eq_map]
  · intro h
    cases n with
    | mk c m ca st =>
      simp [AppErr.cause] at h
      subst h
      rfl

/-- C7 witness: a single-node chain has no separator. -/
theorem claim_c7_witness :
    (NotFoundError "User" (some "123") none none).cause = none ∧
    (NotFoundError "User" (some "123") none none).chain
      = "[" ++ (NotFoundError "User" (some "123") none none).tag ++ "] "
          ++ (NotFoundError "User" (some "123") none none).message :=
  ⟨rfl, (claim_c7 (NotFoundError "User" (some "123") none none)).2.1 rfl⟩

/-- C8: `toJSON(n)` is a record with exactly the fields tag (the machine
discriminator the spec calls kind), name (the display label, equal to the
tag by default), message, stack (which may be absent), and cause, where
cause is recursively the same shape or absent; its nesting depth equals the
chain depth and its flattened tag sequence mirrors `chainArray(n)`. -/
theorem claim_c8 : ∀ (n : AppErr),
    n.toJSON.tag = n.tag ∧
    n.toJSON.name = n.tag ∧
    n.toJSON.message = n.message ∧
    n.toJSON.stack = n.stack ∧
    n.toJSON.cause = n.cause.map AppErr.toJSON ∧
    jsonDepth n.toJSON = n.chainArray.length ∧
    jsonTags n.toJSON = n.chainArray.map AppErr.tag := by
  intro n
  cases n with
  | mk c m ca st =>
    cases ca <;>
      exact ⟨rfl, rfl, rfl, rfl, rfl, jsonDepth_eq _, jsonTags_eq _⟩

/-- C9: `tryCatch(fn, mapError)` yields `ok(value)` when fn returns
normally and `err(mapError(thrown))` when fn throws, with the thrown value
fully contained (the function is total into `Result`); the default mapper is
`fromUnknown`; `tryCatchAsync` satisfies the same contract over the settled
outcome of the asynchronous operation. -/
theorem claim_c9 : ∀ (T E : Type) (v : T) (ex : JSValue) (mapError : JSValue → E)
    (fresh : Option String) (p : Except JSValue T),
    tryCatch (Except.ok v) mapError = Result.ok v ∧
    tryCatch (Except.error ex : Except JSValue T) mapError = Result.err (mapError ex) ∧
    tryCatchDefault fresh (Except.ok v) = Result.ok v ∧
    tryCatchDefault fresh (Except.error ex : Except JSValue T)
      = Result.err (fromUnknown fresh ex) ∧
    tryCatchAsync (Except.ok v) mapError = Result.ok v ∧
    tryCatchAsync (Except.error ex : Except JSValue T) mapError
      = Result.err (mapError ex) ∧
    tryCatchAsync p mapError = tryCatch p mapError := by
  intro T E v ex mapError fresh p
  refine ⟨rfl, rfl, rfl, rfl, rfl, rfl, ?_⟩
  cases p <;> rfl

/-- C10: kind matching in `isError` / `asError` is subclass-aware: for any
`AppError` instance e and any class A that e's class matches by
`instanceof` (in particular the base `AppError` for every built-in
subclass), `isError(e, A)` is true and `asError(e, A)` returns e itself. -/
theorem claim_c10 : ∀ (e : AppErr) (A : AppCls), appSubLe e.cls A = true →
    isError (JSValue.vapp e) A = true ∧
    asError (JSValue.vapp e) A = some (JSValue.vapp e) := by
  intro e A h
  cases e with
  | mk c m ca st =>
    simp [AppErr.cls] at h
    refine ⟨?_, ?_⟩ <;>
      cases ca <;> simp [isError, isErrorApp, asError, asErrorApp, h]

/-- C10 witness: a bare `NotFoundError` matches the ancestor class
`AppError` even though no node in its chain has `AppError` as its own
class. -/
theorem claim_c10_witness :
    appSubLe (NotFoundError "User" (some "123") none none).cls AppCls.appError = true ∧
    (NotFoundError "User" (some "123") none none).chainArray.map AppErr.cls
      = [AppCls.notFound] ∧
    isError (JSValue.vapp (NotFoundError "User" (some "123") none none)) AppCls.appError
      = true ∧
    asError (JSValue.vapp (NotFoundError "User" (some "123") none none)) AppCls.appError
      = some (JSValue.vapp (NotFoundError "User" (some "123") none none)) :=
  ⟨rfl, rfl,
   (claim_c10 (NotFoundError "User" (some "123") none none) AppCls.appError rfl).1,
   (claim_c10 (NotFoundError "User" (some "123") none none) AppCls.appError rfl).2⟩
